import Mathlib

/-!
Verification development for the sentry-sensei-mcp request-dispatch and
response-shaping pipeline.  JavaScript values are shallowly embedded:
optional / possibly-absent fields become `Option`, JS falsiness of strings
(`""` and absence) and of numbers (`0` and absence) is made explicit,
arrays become `List`, numbers used in arithmetic become `Nat`/`Int`/`ℚ`,
and fallible paths return `Except`.  The repository contains two evolving
variants of several modules (an ESM copy under `src/` and a CommonJS copy
used by the serverless functions); both are embedded where they differ.
-/

namespace SentrySensei

/-- JS truthiness of a possibly-absent string: absent and `""` are falsy. -/
def strTruthy : Option String → Bool
  | some s => s ≠ ""
  | none => false

/-- JS truthiness of a possibly-absent number: absent and `0` are falsy. -/
def natTruthy : Option Nat → Bool
  | some n => n ≠ 0
  | none => false

/-- JS `x || null` normalization used for the echoed `id` (`0` is falsy). -/
def idOrNull : Option Int → Option Int
  | some n => if n = 0 then none else some n
  | none => none

/-! ## MCP protocol processor

Two variants exist in the repository:
* `netlify/functions/shared/mcp-processor` (CommonJS, `src/unnamed/part_015`);
* `src/shared/mcp-processor.js` (ESM).
Both are embedded.  The per-tool execution (credential extraction, handler
construction and the tool switch body) performs network I/O and is
abstracted as a `runTool` function: `none` models a tool name that matches
no `TOOL_NAMES` case, `ToolOutcome.mcpError` models a thrown `McpError`,
`ToolOutcome.failure` any other thrown error. -/

/-- `params` of a `tools/call` body: `{name, arguments}`.  The `arguments`
object is opaque to the dispatcher and modeled as an uninterpreted blob. -/
structure MCPParams where
  name : Option String
  arguments : Option String
  deriving Repr, DecidableEq

/-- A JSON-RPC request body `{jsonrpc, method, params, id}`. -/
structure MCPBody where
  jsonrpc : Option String
  method : Option String
  params : Option MCPParams
  id : Option Int
  deriving Repr, DecidableEq

/-- Outcome of executing one tool (the body of the `tools/call` switch). -/
inductive ToolOutcome where
  | ok (result : String)
  | mcpError (code : Int) (message : String)
  | failure (message : String)
  deriving Repr, DecidableEq

/-- Response body: a JSON-RPC error object or one of the result shapes. -/
inductive RespBody where
  | rpcError (code : Int) (message : String) (id : Option Int)
  | initResult (id : Option Int)
  | toolsListResult (id : Option Int)
  | toolResult (result : String) (id : Option Int)
  deriving Repr, DecidableEq

/-- `{status, body}` returned by the processor (body `none` for notifications). -/
structure MCPResponse where
  status : Nat
  body : Option RespBody
  deriving Repr, DecidableEq

namespace Netlify

/-- `processMCPRequest` of the serverless shared processor
(`src/unnamed/part_015`).  Checks the `jsonrpc` literal first (`!jsonrpc ||
jsonrpc !== '2.0'`), then requires `method` (`!method`), then dispatches;
an unrecognized method falls through to a 404 / -32601 response. -/
def processMCPRequest (runTool : String → Option String → Option ToolOutcome)
    (body : Option MCPBody) : MCPResponse :=
  let b := body.getD ⟨none, none, none, none⟩
  if ¬ strTruthy b.jsonrpc ∨ b.jsonrpc ≠ some "2.0" then
    { status := 400,
      body := some (.rpcError (-32600) "Invalid Request - JSON-RPC 2.0 format required"
        (idOrNull b.id)) }
  else if ¬ strTruthy b.method then
    { status := 400,
      body := some (.rpcError (-32600) "Invalid Request - method is required"
        (idOrNull b.id)) }
  else if b.method = some "initialize" then
    { status := 200, body := some (.initResult b.id) }
  else if b.method = some "notifications/initialized" then
    { status := 200, body := none }
  else if b.method = some "tools/list" then
    { status := 200, body := some (.toolsListResult b.id) }
  else if b.method = some "tools/call" then
    let p := b.params.getD ⟨none, none⟩
    if ¬ strTruthy p.name then
      { status := 400,
        body := some (.rpcError (-32602) "Invalid params - tool name is required"
          (idOrNull b.id)) }
    else
      let toolName := p.name.getD ""
      match runTool toolName p.arguments with
      | none =>
          { status := 404,
            body := some (.rpcError (-32601) ("Method not found: " ++ toolName)
              (idOrNull b.id)) }
      | some (.ok r) => { status := 200, body := some (.toolResult r b.id) }
      | some (.mcpError c m) =>
          { status := 400, body := some (.rpcError c m (idOrNull b.id)) }
      | some (.failure _) =>
          { status := 500,
            body := some (.rpcError (-32603) "Internal server error" (idOrNull b.id)) }
  else
    { status := 404,
      body := some (.rpcError (-32601) ("Method not found: " ++ b.method.getD "")
        (idOrNull b.id)) }

end Netlify

namespace Shared

/-- `processMCPRequest` of `src/shared/mcp-processor.js` (ESM variant).
It checks only `jsonrpc !== '2.0'`, has no dedicated missing-`method`
check, and its unknown-method fallthrough returns status **400** with
code -32601.  In `tools/call`, an unknown tool and any tool error are
re-thrown as `McpError` (modeled with `Except.error (code, message)`). -/
def processMCPRequest (runTool : String → Option String → Option ToolOutcome)
    (body : Option MCPBody) : Except (Int × String) MCPResponse :=
  let b := body.getD ⟨none, none, none, none⟩
  if b.jsonrpc ≠ some "2.0" then
    .ok { status := 400,
          body := some (.rpcError (-32600) "Invalid Request" b.id) }
  else if b.method = some "initialize" then
    .ok { status := 200, body := some (.initResult b.id) }
  else if b.method = some "notifications/initialized" then
    .ok { status := 200, body := none }
  else if b.method = some "tools/list" then
    .ok { status := 200, body := some (.toolsListResult b.id) }
  else if b.method = some "tools/call" then
    let p := b.params.getD ⟨none, none⟩
    let toolName := p.name.getD ""
    match runTool toolName p.arguments with
    | none => .error (-32601, "Unknown tool: " ++ toolName)
    | some (.ok r) => .ok { status := 200, body := some (.toolResult r b.id) }
    | some (.mcpError c m) => .error (c, m)
    | some (.failure m) => .error (-32603, "Error executing tool: " ++ m)
  else
    .ok { status := 400,
          body := some (.rpcError (-32601) ("Method not found: " ++ b.method.getD "")
            b.id) }

end Shared

/-! ## JavaScript `Date` environment

The services and formatters call `Date` builtins (`toISOString`,
`getUTCFullYear`, `toLocaleDateString`, ...).  These are environment
functions, not repository code, so they are abstracted as parameters; the
repository's own arithmetic on epoch milliseconds is modeled explicitly.
The embedding fixes the runtime timezone to UTC (the code itself shifts
`new Date()` by `getTimezoneOffset()` and otherwise uses UTC accessors; in
a UTC runtime local accessors such as `setHours` coincide with the UTC
ones). -/
structure JSDateEnv where
  toISOString : Int → String
  getUTCFullYear : Int → Int
  getUTCMonth : Int → Nat
  getUTCDate : Int → Nat
  toLocaleDateString : String → String
  toLocaleTimeString : String → String

/-- Milliseconds per day. -/
def msPerDay : Int := 86400000

/-- Day index (days since the epoch) of an epoch-millisecond instant
(floor division: `msPerDay` is positive, so `Int` division rounds down). -/
def dayNumber (ms : Int) : Int := ms / msPerDay

/-- `Date.prototype.getUTCDay`: 0 = Sunday ... 6 = Saturday.  The epoch
day (1970-01-01) was a Thursday, hence the shift by 4. -/
def getUTCDay (ms : Int) : Int := (dayNumber ms + 4) % 7

/-! ## SentryService (`src/services/SentryService.js` and the serverless
copy `src/unnamed/part_006`)

`getSentryIssuesList` builds a `URLSearchParams`; the embedding represents
it as the ordered list of appended `(name, value)` pairs. -/

/-- A JS argument that may be a scalar or an array (`project`,
`environment` accept both). -/
inductive ArrOrOne (α : Type) where
  | one (a : α)
  | many (l : List α)
  deriving Repr, DecidableEq

/-- Options object accepted by `getSentryIssuesList` (both variants; the
ESM variant additionally destructures `expand`). -/
structure IssueListOptions where
  project : Option (ArrOrOne String) := none
  dateFrom : Option String := none
  dateTo : Option String := none
  sortBy : Option String := none
  excludeErrorType : Option String := none
  errorMessage : Option String := none
  environment : Option (ArrOrOne String) := none
  limit : Option Nat := none
  issue : Option String := none
  utc : Option Bool := none
  statsPeriod : Option String := none
  groupStatsPeriod : Option String := none
  query : Option String := none
  expand : Option (List String) := none
  collapse : Option (List String) := none
  cursor : Option String := none
  deriving Repr, DecidableEq

/-- `String.prototype.slice(0, n)` / `substring(0, n)`: the first `n`
characters (structural model of the JS builtin). -/
def jsSlice0 (s : String) (n : Nat) : String := String.mk (s.data.take n)

/-- `String.prototype.trim`: strip leading and trailing whitespace
(structural model of the JS builtin). -/
def jsTrim (s : String) : String :=
  String.mk (((s.data.dropWhile Char.isWhitespace).reverse.dropWhile
    Char.isWhitespace).reverse)

/-- The search-query parts: an explicitly supplied `query` (when truthy)
replaces the `is:unresolved` default, which is used only when `query` is
`undefined`; then the `issue` / `!error.type` / `message` clauses are
appended. -/
def buildQueryParts (o : IssueListOptions) : List String :=
  (match o.query with
    | some q => if q ≠ "" then [q] else []
    | none => ["is:unresolved"])
  ++ (if strTruthy o.issue then ["issue:\"" ++ o.issue.getD "" ++ "\""] else [])
  ++ (if strTruthy o.excludeErrorType then
        ["!error.type:\"" ++ o.excludeErrorType.getD "" ++ "\""] else [])
  ++ (if strTruthy o.errorMessage then
        ["message:\"" ++ o.errorMessage.getD "" ++ "\""] else [])

/-- `formatForSentry` inside `getPreviousWeekRange`: strip a trailing
`.<3 digits>Z` (the `\.\d{3}Z$` regex) from an ISO timestamp. -/
def stripMsZ (s : String) : String :=
  match s.data.reverse with
  | 'Z' :: a :: b :: c :: '.' :: rest =>
      if a.isDigit && b.isDigit && c.isDigit then String.mk rest.reverse else s
  | _ => s

/-- `formatDateForSentry`: drop a trailing `Z` (the `/Z$/` regex) from a
truthy date string. -/
def formatDateForSentry (s : String) : String :=
  if s ≠ "" then (if s.endsWith "Z" then s.dropRight 1 else s) else s

/-- End-of-day instant (UTC 23:59:59.999) of the most recent Sunday not
after `now`: `lastSunday` in `getPreviousWeekRange`. -/
def sundayEndMs (now : Int) : Int :=
  (dayNumber now - getUTCDay now) * msPerDay + (msPerDay - 1)

/-- Start-of-day instant (UTC 00:00:00.000) of the Monday six days before
that Sunday: `lastMonday` in `getPreviousWeekRange`. -/
def mondayStartMs (now : Int) : Int :=
  (dayNumber now - getUTCDay now - 6) * msPerDay

/-- `String.prototype.padStart(2, '0')` on a rendered number. -/
def pad2 (n : Nat) : String :=
  let s := toString n
  if s.length < 2 then "0" ++ s else s

/-- `formatForDisplay`: `YYYY-MM-DD` from the UTC calendar accessors. -/
def formatForDisplay (env : JSDateEnv) (ms : Int) : String :=
  toString (env.getUTCFullYear ms) ++ "-" ++ pad2 (env.getUTCMonth ms + 1)
    ++ "-" ++ pad2 (env.getUTCDate ms)

/-- Result object of `getPreviousWeekRange`. -/
structure WeekRange where
  startDate : String
  endDate : String
  startDateDisplay : String
  endDateDisplay : String
  rangeStr : String
  deriving Repr, DecidableEq

/-- `SentryService.getPreviousWeekRange` (identical in both variants):
previous Monday-through-Sunday week in UTC, serialized without
milliseconds. -/
def getPreviousWeekRange (env : JSDateEnv) (now : Int) : WeekRange :=
  let lastSunday := sundayEndMs now
  let lastMonday := mondayStartMs now
  { startDate := stripMsZ (env.toISOString lastMonday)
    endDate := stripMsZ (env.toISOString lastSunday)
    startDateDisplay := formatForDisplay env lastMonday
    endDateDisplay := formatForDisplay env lastSunday
    rangeStr := formatForDisplay env lastMonday ++ " - " ++ formatForDisplay env lastSunday }

/-- The `start`/`end` date-range pair appended when `statsPeriod` is
absent: explicit dates fill in, the previous-week range supplies any
missing bound. -/
def dateRangeParams (env : JSDateEnv) (now : Int) (o : IssueListOptions) :
    List (String × String) :=
  let startDate0 := o.dateFrom.getD ""
  let endDate0 := o.dateTo.getD ""
  let range := getPreviousWeekRange env now
  let startDate := if startDate0 ≠ "" then startDate0 else range.startDate
  let endDate := if endDate0 ≠ "" then endDate0 else range.endDate
  [("start", formatDateForSentry startDate), ("end", formatDateForSentry endDate)]

/-- Repeated query parameters for a scalar-or-array option (`environment`,
`project`): a falsy scalar emits nothing, an array (even empty) is truthy
and emits one pair per element. -/
def arrOrOneParams (key : String) : Option (ArrOrOne String) → List (String × String)
  | some (.one v) => if v ≠ "" then [(key, v)] else []
  | some (.many l) => l.map (fun v => (key, v))
  | none => []

/-- Parameters common to both variants after the query-string and date
logic: `groupStatsPeriod`, `environment`, `project`. -/
def middleParams (o : IssueListOptions) : List (String × String) :=
  (if strTruthy o.groupStatsPeriod then [("groupStatsPeriod", o.groupStatsPeriod.getD "")] else [])
  ++ arrOrOneParams "environment" o.environment
  ++ arrOrOneParams "project" o.project

/-- `expand`/`collapse` fields: appended only for a non-empty array. -/
def listFieldParams (key : String) : Option (List String) → List (String × String)
  | some l => if l ≠ [] then l.map (fun f => (key, f)) else []
  | none => []

/-- The trailing parameters: `cursor` (when truthy) and `shortIdLookup=1`. -/
def tailParams (o : IssueListOptions) : List (String × String) :=
  (if strTruthy o.cursor then [("cursor", o.cursor.getD "")] else [])
  ++ [("shortIdLookup", "1")]

/-- Seed of the `URLSearchParams`: `sort`, `limit` (default 10), `utc`. -/
def seedParams (o : IssueListOptions) : List (String × String) :=
  [("sort", o.sortBy.getD "freq"), ("limit", toString (o.limit.getD 10)),
   ("utc", if o.utc.getD true then "true" else "false")]

/-- The optional `query` parameter (appended when the joined parts are
nonempty after trimming). -/
def queryParam (o : IssueListOptions) : List (String × String) :=
  let query := String.intercalate " " (buildQueryParts o)
  if jsTrim query ≠ "" then [("query", query)] else []

namespace Netlify

/-- `getSentryIssuesList` of the serverless `SentryService`
(`src/unnamed/part_006`): the full ordered query-parameter list (this
variant has no `expand` option). -/
def getSentryIssuesList (env : JSDateEnv) (now : Int) (o : IssueListOptions) :
    List (String × String) :=
  seedParams o
  ++ queryParam o
  ++ (if strTruthy o.statsPeriod then [("statsPeriod", o.statsPeriod.getD "")]
      else dateRangeParams env now o)
  ++ middleParams o
  ++ listFieldParams "collapse" o.collapse
  ++ tailParams o

end Netlify

namespace Src

/-- `getSentryIssuesList` of `src/services/SentryService.js`.  On the
no-`statsPeriod` path this variant calls `params.f('start', ...)`;
`URLSearchParams` has no method `f`, so execution throws a `TypeError`
before any date parameter is appended. -/
def getSentryIssuesList (env : JSDateEnv) (now : Int) (o : IssueListOptions) :
    Except String (List (String × String)) :=
  if strTruthy o.statsPeriod then
    .ok (seedParams o
      ++ queryParam o
      ++ [("statsPeriod", o.statsPeriod.getD "")]
      ++ middleParams o
      ++ listFieldParams "expand" o.expand
      ++ listFieldParams "collapse" o.collapse
      ++ tailParams o)
  else
    .error "TypeError: params.f is not a function"

end Src

/-! ## SentryHandler (`src/mcp/sentryHandler.js`, both variants)

`calculateRelativeDates` and the `getIssues` option assembly are identical
in the two handler variants.  `new Date()` arithmetic is embedded over
epoch milliseconds with the runtime timezone fixed to UTC: `setDate(d - N)`
subtracts exactly `N` civil days, `setHours(0,0,0,0)` floors to the start
of the day and `setHours(23,59,59,999)` moves to the last millisecond of
the day. -/

/-- Start-of-day instant of the day `relativeDays` days before `now`
(`fromDate` in `calculateRelativeDates`). -/
def relStartMs (now : Int) (relativeDays : Nat) : Int :=
  (dayNumber now - relativeDays) * msPerDay

/-- End-of-day instant (23:59:59.999) of the current day (`now` after
`setHours(23,59,59,999)` in `calculateRelativeDates`). -/
def relEndMs (now : Int) : Int := dayNumber now * msPerDay + (msPerDay - 1)

/-- `SentryHandler.calculateRelativeDates`: ISO-serialized
`{dateFrom, dateTo}` for the last `relativeDays` days. -/
def calculateRelativeDates (env : JSDateEnv) (now : Int) (relativeDays : Nat) :
    String × String :=
  (env.toISOString (relStartMs now relativeDays), env.toISOString (relEndMs now))

/-- The `getIssues` tool arguments consumed by the handler's option
assembly. -/
structure IssuesArgs where
  project : Option (ArrOrOne String) := none
  dateFrom : Option String := none
  dateTo : Option String := none
  sortBy : Option String := none
  excludeErrorType : Option String := none
  errorMessage : Option String := none
  environment : Option (ArrOrOne String) := none
  limit : Option Nat := none
  statsPeriod : Option String := none
  groupStatsPeriod : Option String := none
  query : Option String := none
  expand : Option (List String) := none
  collapse : Option (List String) := none
  cursor : Option String := none
  relativeDays : Option Nat := none
  deriving Repr, DecidableEq

/-- The options record `SentryHandler.getIssues` passes to the service:
the argument fields are copied over, and when `relativeDays` is truthy and
`statsPeriod` is not, `calculateRelativeDates` overwrites
`dateFrom`/`dateTo`. -/
def assembleIssueOptions (env : JSDateEnv) (now : Int) (args : IssuesArgs) :
    IssueListOptions :=
  let base : IssueListOptions :=
    { project := args.project, dateFrom := args.dateFrom, dateTo := args.dateTo,
      sortBy := args.sortBy, excludeErrorType := args.excludeErrorType,
      errorMessage := args.errorMessage, environment := args.environment,
      limit := args.limit, statsPeriod := args.statsPeriod,
      groupStatsPeriod := args.groupStatsPeriod, query := args.query,
      expand := args.expand, collapse := args.collapse, cursor := args.cursor }
  if natTruthy args.relativeDays ∧ ¬ strTruthy args.statsPeriod then
    let dates := calculateRelativeDates env now (args.relativeDays.getD 0)
    { base with dateFrom := some dates.1, dateTo := some dates.2 }
  else
    base

/-! ## SentryFormatter

`summarizeTag` and `extractRelevantTags` are textually identical in
`src/utils/SentryFormatter.js` and the serverless copy
(`src/unnamed/part_008`); they are embedded once.  `formatIssueDetails` is
embedded from the serverless copy (the four-parameter variant with
`latestEvent` and `checkDeepDetails`), which is the one invoked by the
issue-details tool handler.  JS numbers in the percentage computation are
modeled as rationals; `Math.round` is floor of `x + 1/2`. -/

/-- `Math.round` on a (nonnegative) rational: round half away from zero. -/
def mathRound (q : ℚ) : ℤ := ⌊q + 1 / 2⌋

/-- One element of a Sentry tag's `topValues`. -/
structure TopValue where
  value : Option String := none
  count : Nat := 0
  firstSeen : Option String := none
  lastSeen : Option String := none
  deriving Repr, DecidableEq

/-- A Sentry tag object: `{key, topValues, totalValues}`. -/
structure TagObj where
  key : String := ""
  topValues : Option (List TopValue) := none
  totalValues : Option Nat := none
  deriving Repr, DecidableEq

/-- One entry of a summarized tag. -/
structure SummaryEntry where
  name : Option String := none
  count : Nat := 0
  percent : Option ℚ := none
  firstSeen : Option String := none
  lastSeen : Option String := none
  deriving Repr, DecidableEq

/-- `SentryFormatter.summarizeTag`: keep the first `topN` values and add
each value's percentage of `totalValues` (one decimal place), or `null`
when the total is falsy. -/
def summarizeTag (tagObj : Option TagObj) (topN : Nat := 3) : List SummaryEntry :=
  match tagObj with
  | none => []
  | some t =>
    match t.topValues with
    | none => []
    | some tvs =>
      let total := t.totalValues.getD 0
      (tvs.take topN).map (fun v =>
        { name := v.value, count := v.count,
          percent :=
            if total ≠ 0 then
              some ((mathRound ((v.count : ℚ) / (total : ℚ) * 1000) : ℚ) / 10)
            else none,
          firstSeen := v.firstSeen, lastSeen := v.lastSeen })

/-- The fixed tag-key map of `extractRelevantTags`; unmapped keys yield
`none` and are dropped. -/
def keyMap : String → Option String
  | "browser.name" => some "browser"
  | "browser" => some "browser"
  | "os.name" => some "os"
  | "os" => some "os"
  | "device" => some "device"
  | "device.family" => some "device"
  | "release" => some "release"
  | "environment" => some "environment"
  | _ => none

/-- Insertion-ordered JS-object update: an existing key keeps its position
and gets the new value, a new key is appended. -/
def upsert (l : List (String × List SummaryEntry)) (k : String)
    (v : List SummaryEntry) : List (String × List SummaryEntry) :=
  if l.any (fun p => p.1 = k) then
    l.map (fun p => if p.1 = k then (k, v) else p)
  else l ++ [(k, v)]

/-- One step of the `extractRelevantTags` loop: a mapped key stores the
tag's summary under its canonical name, an unmapped key is dropped. -/
def addRelevantTag (topN : Nat) (acc : List (String × List SummaryEntry))
    (tagObj : TagObj) : List (String × List SummaryEntry) :=
  match keyMap tagObj.key with
  | some mappedKey => upsert acc mappedKey (summarizeTag (some tagObj) topN)
  | none => acc

/-- `SentryFormatter.extractRelevantTags`: summarize the tags whose key is
in `keyMap`, keyed by the canonical short name; `null` for a non-array
input or when nothing relevant was found. -/
def extractRelevantTags (tagsArray : Option (List TagObj)) (topN : Nat := 3) :
    Option (List (String × List SummaryEntry)) :=
  match tagsArray with
  | none => none
  | some tags =>
    let relevant := tags.foldl (addRelevantTag topN) []
    if relevant.length > 0 then some relevant else none

/-- `issueDetails.assignedTo`. -/
structure AssignedTo where
  name : Option String := none
  email : Option String := none
  deriving Repr, DecidableEq

/-- `issueDetails.project` (only `name` is read by this variant). -/
structure ProjectObj where
  name : Option String := none
  deriving Repr, DecidableEq

/-- One element of `issueDetails.annotations`. -/
structure AnnotationObj where
  displayName : Option String := none
  url : Option String := none
  deriving Repr, DecidableEq

/-- `issueDetails.metadata` (the core keys read by the formatter). -/
structure MetaObj where
  value : Option String := none
  type : Option String := none
  filename : Option String := none
  function : Option String := none
  deriving Repr, DecidableEq

/-- `issueDetails.user` fields copied in deep mode. -/
structure UserObj where
  id : Option String := none
  email : Option String := none
  username : Option String := none
  ipAddress : Option String := none
  deriving Repr, DecidableEq

/-- `issueDetails.release` fields copied in deep mode. -/
structure ReleaseObj where
  version : Option String := none
  dateCreated : Option String := none
  dateReleased : Option String := none
  deriving Repr, DecidableEq

/-- One stack frame of the latest event. -/
structure Frame where
  filename : Option String := none
  lineno : Option Int := none
  function : Option String := none
  deriving Repr, DecidableEq

/-- `values[0].stacktrace`. -/
structure StackObj where
  frames : Option (List Frame) := none
  deriving Repr, DecidableEq

/-- One element of `entry.data.values`. -/
structure ValueObj where
  vtype : Option String := none
  value : Option String := none
  mechanism : Option String := none
  stacktrace : Option StackObj := none
  deriving Repr, DecidableEq

/-- `entry.data`. -/
structure EntryData where
  values : Option (List ValueObj) := none
  deriving Repr, DecidableEq

/-- One element of `latestEvent.entries`. -/
structure EventEntry where
  etype : String := ""
  data : Option EntryData := none
  deriving Repr, DecidableEq

/-- The latest event passed to the formatter. -/
structure LatestEvent where
  entries : Option (List EventEntry) := none
  deriving Repr, DecidableEq

/-- The raw issue object consumed by `formatIssueDetails`. -/
structure IssueDetails where
  id : Option String := none
  shortId : Option String := none
  title : Option String := none
  culprit : Option String := none
  level : Option String := none
  status : Option String := none
  firstSeen : Option String := none
  lastSeen : Option String := none
  count : Option String := none
  userCount : Option Nat := none
  project : Option ProjectObj := none
  annotations : Option (List AnnotationObj) := none
  assignedTo : Option AssignedTo := none
  permalink : Option String := none
  substatus : Option String := none
  platform : Option String := none
  type : Option String := none
  isUnhandled : Option Bool := none
  metadata : Option MetaObj := none
  hasSeen : Option Bool := none
  stats : Option String := none
  user : Option UserObj := none
  release : Option ReleaseObj := none
  deriving Repr, DecidableEq

/-- Formatted JIRA-link pair `{key, url}`. -/
structure LinkPair where
  key : Option String := none
  url : Option String := none
  deriving Repr, DecidableEq

/-- The formatter's `metadata` output: the filtered core keys, or the full
metadata object in deep mode. -/
inductive FMeta where
  | core (m : MetaObj)
  | full (m : MetaObj)
  deriving Repr, DecidableEq

/-- Deep-mode `exception` block. -/
structure ExcBlock where
  type : Option String := none
  value : Option String := none
  mechanism : Option String := none
  deriving Repr, DecidableEq

/-- The object built by `formatIssueDetails` (serverless variant).  An
outer `Option` marks a key that is only conditionally added to the object;
its inner value mirrors the JS value (which may itself be `null`). -/
structure FormattedIssue where
  id : Option String := none
  shortId : Option String := none
  title : String := ""
  culprit : Option String := none
  level : Option String := none
  status : Option String := none
  firstSeen : Option String := none
  lastSeen : Option String := none
  count : Option String := none
  userCount : Nat := 0
  project : String := ""
  annotations : List LinkPair := []
  assignedTo : Option (Option AssignedTo) := none
  permalink : Option (Option String) := none
  substatus : Option (Option String) := none
  platform : Option String := none
  type : Option String := none
  isUnhandled : Option Bool := none
  metadata : Option FMeta := none
  hasSeen : Option (Option Bool) := none
  stats : Option (Option String) := none
  user : Option UserObj := none
  release : Option ReleaseObj := none
  tagsSummary : Option (Option (List (String × List SummaryEntry))) := none
  stacktrace : Option String := none
  exception : Option ExcBlock := none
  deriving Repr, DecidableEq

/-- `e.type === 'exception' || e.type === 'stacktrace'`. -/
def isStackEntry (e : EventEntry) : Bool :=
  e.etype = "exception" ∨ e.etype = "stacktrace"

/-- The optional chain `entry.data?.values?.[0]`. -/
def firstValue (e : EventEntry) : Option ValueObj :=
  (e.data.bind (fun d => d.values)).bind List.head?

/-- The optional chain `entry.data?.values?.[0]?.stacktrace?.frames`. -/
def entryFrames (e : EventEntry) : Option (List Frame) :=
  ((firstValue e).bind (fun v => v.stacktrace)).bind (fun s => s.frames)

/-- `filename.split('/').pop()`: the characters after the last slash
(empty for a trailing slash, the whole string when no slash occurs). -/
def basenameAux : List Char → List Char → List Char
  | cur, [] => cur.reverse
  | _, '/' :: rest => basenameAux [] rest
  | cur, c :: rest => basenameAux (c :: cur) rest

/-- `split('/').pop()` on a string. -/
def jsBasename (s : String) : String := String.mk (basenameAux [] s.data)

/-- Render one frame: `"<basename(filename)>:<lineno> in <function>"`, with
`<unknown>` for a falsy filename and `?` for a falsy function. -/
def renderFrame (f : Frame) : String :=
  let file := match f.filename with
    | some fn => if fn ≠ "" then jsBasename fn else "<unknown>"
    | none => "<unknown>"
  let lineno := match f.lineno with
    | some n => toString n
    | none => "undefined"
  let func := match f.function with
    | some fn => if fn ≠ "" then fn else "?"
    | none => "?"
  file ++ ":" ++ lineno ++ " in " ++ func

/-- Replace the frames of a value's stacktrace with the reversed list
(the in-place effect of `Array.prototype.reverse`). -/
def reverseEntryFrames (e : EventEntry) : EventEntry :=
  { e with data := e.data.map (fun d =>
      { d with values := d.values.map (fun vs =>
          match vs with
          | [] => []
          | v :: rest =>
            { v with stacktrace := v.stacktrace.map (fun s =>
                { s with frames := s.frames.map List.reverse }) } :: rest) }) }

/-- `entries.find(...)` combined with the in-place `frames.reverse()`:
the first entry of stack type has its frames reversed, provided the full
`data.values[0].stacktrace.frames` chain is present. -/
def mutateEntryList : List EventEntry → List EventEntry
  | [] => []
  | e :: rest =>
    if isStackEntry e then
      (if (entryFrames e).isSome then reverseEntryFrames e else e) :: rest
    else
      e :: mutateEntryList rest

/-- The core-metadata block: the `['value','type','filename','function']`
keys that are present (truthy). -/
def coreMetadata (m : MetaObj) : MetaObj :=
  { value := if strTruthy m.value then m.value else none,
    type := if strTruthy m.type then m.type else none,
    filename := if strTruthy m.filename then m.filename else none,
    function := if strTruthy m.function then m.function else none }

/-- Whether the core-metadata block has at least one key. -/
def coreMetaNonempty (m : MetaObj) : Bool :=
  strTruthy m.value ∨ strTruthy m.type ∨ strTruthy m.filename ∨ strTruthy m.function

/-- The stack-trace text of the latest event: first stack-type entry,
frames reversed (throwing frame first), truncated to 10 frames (20 in deep
mode), rendered and newline-joined. -/
def stackTraceText (latestEvent : Option LatestEvent) (checkDeepDetails : Bool) :
    Option String :=
  ((latestEvent.bind (fun ev => (ev.entries.getD []).find? isStackEntry)).bind
      entryFrames).map (fun frames =>
    String.intercalate "\n"
      ((frames.reverse.take (if checkDeepDetails then 20 else 10)).map renderFrame))

/-- The deep-mode `exception` block, present only when the stack-trace
branch was taken. -/
def exceptionBlock (latestEvent : Option LatestEvent) (checkDeepDetails : Bool) :
    Option ExcBlock :=
  match latestEvent.bind (fun ev => (ev.entries.getD []).find? isStackEntry) with
  | none => none
  | some entry =>
    if (entryFrames entry).isSome ∧ checkDeepDetails then
      (firstValue entry).map (fun v =>
        { type := v.vtype, value := v.value, mechanism := v.mechanism })
    else none

/-- `SentryFormatter.formatIssueDetails` (serverless variant, four
parameters).  Returns the formatted object together with the
possibly-mutated `latestEvent`: JS `frames.reverse()` mutates the caller's
event in place (`mutateEntryList` is the identity when no stack entry with
frames exists, so it is applied unconditionally).  The sequential
conditional assignments of the source are written as one record whose
conditional keys carry the same conditions. -/
def formatIssueDetails (issueDetails : Option IssueDetails)
    (tagsArray : Option (List TagObj) := none)
    (latestEvent : Option LatestEvent := none)
    (checkDeepDetails : Bool := false) :
    Option FormattedIssue × Option LatestEvent :=
  match issueDetails with
  | none => (none, latestEvent)
  | some d =>
    let formatted : FormattedIssue :=
      { id := d.id, shortId := d.shortId,
        title := if strTruthy d.title then d.title.getD "" else "<no title>",
        culprit := d.culprit, level := d.level, status := d.status,
        firstSeen := d.firstSeen, lastSeen := d.lastSeen, count := d.count,
        userCount := d.userCount.getD 0,
        project := match d.project with
          | some p => if strTruthy p.name then p.name.getD "" else "Unknown"
          | none => "Unknown",
        annotations := (d.annotations.getD []).map
          (fun a => { key := a.displayName, url := a.url }),
        assignedTo := if checkDeepDetails ∨ d.assignedTo.isSome
          then some d.assignedTo else none,
        permalink := if checkDeepDetails then some d.permalink else none,
        substatus := if checkDeepDetails then some d.substatus else none,
        platform := d.platform, type := d.type, isUnhandled := d.isUnhandled,
        metadata := match d.metadata with
          | some m =>
            if checkDeepDetails then some (.full m)
            else if coreMetaNonempty m then some (.core (coreMetadata m))
            else none
          | none => none,
        hasSeen := if checkDeepDetails then some d.hasSeen else none,
        stats := if checkDeepDetails then some d.stats else none,
        user := if checkDeepDetails then d.user else none,
        release := if checkDeepDetails then d.release else none,
        tagsSummary := if tagsArray.isSome ∧ checkDeepDetails
          then some (extractRelevantTags tagsArray 5) else none,
        stacktrace := stackTraceText latestEvent checkDeepDetails,
        exception := exceptionBlock latestEvent checkDeepDetails }
    (some formatted,
     latestEvent.map (fun ev => { ev with entries := ev.entries.map mutateEntryList }))

/-! ## Issue-details tool handler (`SentryHandler.getSentryIssueDetails`)

The handler fetches the issue, then (depending on the flags) the tags and
the latest event, each auxiliary fetch wrapped in its own `try/catch` that
logs a warning and leaves the corresponding variable `null`.  Each fetch
is abstracted as an `Except`: `.error` models a throwing call. -/

/-- The flags of a `get_sentry_issue_details` call (each strictly
compared: `includeTags === true`, `trace === false`,
`deepDetails === true`). -/
structure DetailFlags where
  includeTags : Option Bool := none
  trace : Option Bool := none
  deepDetails : Option Bool := none
  deriving Repr, DecidableEq

/-- `getSentryIssueDetails` after the issue fetch succeeded: resolve the
flags, absorb auxiliary-fetch failures into `null`, and format. -/
def getSentryIssueDetailsCore (flags : DetailFlags) (issueDetails : IssueDetails)
    (tagsFetch : Except String (List TagObj))
    (eventFetch : Except String LatestEvent) : Option FormattedIssue :=
  let actualIncludeTags := flags.includeTags = some true
  let actualTrace := flags.trace ≠ some false
  let actualDeepDetails := flags.deepDetails = some true
  let tags : Option (List TagObj) :=
    if actualIncludeTags ∨ actualDeepDetails then tagsFetch.toOption else none
  let latestEvent : Option LatestEvent :=
    if actualTrace ∨ actualDeepDetails then eventFetch.toOption else none
  (formatIssueDetails (some issueDetails) tags latestEvent actualDeepDetails).1

/-! ## JiraFormatter (`src/utils/JiraFormatter.js`)

The JIRA rich-text document format is embedded as an inductive: each
constructor carries exactly what the formatter reads (`type`,
`content`, `text`). -/

mutual
/-- A node of the JIRA document format. -/
inductive JNode where
  | textNode (text : Option String)
  | paragraph (content : Option JNodes)
  | bulletList (content : Option JNodes)
  | orderedList (content : Option JNodes)
  | listItem (content : Option JNodes)
  | otherNode

/-- A node array (spelled as its own inductive so that the document
recursion is structural). -/
inductive JNodes where
  | nil
  | cons (head : JNode) (tail : JNodes)
end

/-- Build a node array from a list literal. -/
def JNodes.ofList : List JNode → JNodes
  | [] => .nil
  | n :: rest => .cons n (JNodes.ofList rest)

mutual

/-- Text of a paragraph's direct children: each truthy text run followed
by a space. -/
def paragraphText : JNodes → String
  | .nil => ""
  | .cons (.textNode (some t)) rest =>
      (if t ≠ "" then t ++ " " else "") ++ paragraphText rest
  | .cons _ rest => paragraphText rest

/-- The recursive `processContent` accumulator. -/
def processContent : JNodes → String
  | .nil => ""
  | .cons (.paragraph (some content)) rest =>
      paragraphText content ++ "\n" ++ processContent rest
  | .cons (.bulletList (some content)) rest =>
      bulletItems content ++ processContent rest
  | .cons (.orderedList (some content)) rest =>
      orderedItems 0 content ++ processContent rest
  | .cons _ rest => processContent rest

/-- Bullet-list children: each `listItem` with content gets a `• ` prefix
and is processed recursively. -/
def bulletItems : JNodes → String
  | .nil => ""
  | .cons (.listItem (some c)) rest => "• " ++ processContent c ++ bulletItems rest
  | .cons _ rest => bulletItems rest

/-- Ordered-list children: `forEach` supplies the absolute child index, so
every child advances the numbering even when skipped. -/
def orderedItems : Nat → JNodes → String
  | _, .nil => ""
  | index, .cons (.listItem (some c)) rest =>
      toString (index + 1) ++ ". " ++ processContent c ++ orderedItems (index + 1) rest
  | index, .cons _ rest => orderedItems (index + 1) rest

end

/-- A JIRA rich-text document: the formatter only reads its `content`
array (`!doc || !doc.content` short-circuits to `''`). -/
structure JDoc where
  content : Option JNodes := none

/-- `JiraFormatter.extractTextFromDocument`: process the document's
content and trim the result. -/
def extractTextFromDocument : Option JDoc → String
  | none => ""
  | some d =>
    match d.content with
    | none => ""
    | some c => jsTrim (processContent c)

/-- `JiraFormatter.formatTimeSpent`: seconds to `"<H>h <M>m"` / `"<M>m"`. -/
def formatTimeSpent (seconds : Nat) : String :=
  if seconds = 0 then "0"
  else
    let hours := seconds / 3600
    let minutes := (seconds % 3600) / 60
    if hours > 0 then toString hours ++ "h " ++ toString minutes ++ "m"
    else toString minutes ++ "m"

/-- A comment author (`c.author?.displayName`). -/
structure PersonObj where
  displayName : Option String := none
  deriving Repr, DecidableEq

/-- One raw JIRA comment. -/
structure JComment where
  author : Option PersonObj := none
  created : Option String := none
  body : Option JDoc := none

/-- The `fields.comment` container. -/
structure CommentContainer where
  comments : Option (List JComment) := none

/-- A rendered recent comment. -/
structure RComment where
  author : String := ""
  created : String := ""
  createdTime : String := ""
  body : String := ""
  fullBody : String := ""
  deriving Repr, DecidableEq

/-- `Array.prototype.slice(-n)` for positive `n`: the last `n` elements.
(The formatter calls this with 2 or 5; JS `slice(-0)` would instead copy
the whole array, a case the code never exercises.) -/
def jsSliceLast (l : List α) (n : Nat) : List α := l.drop (l.length - n)

/-- Render one comment: author display name, locale date, locale time and
the body (truncated to 500 characters with an ellipsis). -/
def renderComment (env : JSDateEnv) (c : JComment) : RComment :=
  let author := match c.author with
    | some a => if strTruthy a.displayName then a.displayName.getD "" else "Unknown"
    | none => "Unknown"
  let created := if strTruthy c.created
    then env.toLocaleDateString (c.created.getD "") else "Unknown"
  let createdTime := if strTruthy c.created
    then env.toLocaleTimeString (c.created.getD "") else "Unknown"
  let body0 := extractTextFromDocument c.body
  let body := if body0 ≠ "" then body0 else "No content"
  { author := author, created := created, createdTime := createdTime,
    body := if body.length > 500 then jsSlice0 body 500 ++ "..." else body,
    fullBody := body }

/-- `JiraFormatter.getRecentComments`: the last `limit` comments, rendered
and then reversed. -/
def getRecentComments (env : JSDateEnv) (comment : Option CommentContainer)
    (limit : Nat := 5) : List RComment :=
  match comment with
  | none => []
  | some cont =>
    match cont.comments with
    | none => []
    | some cs =>
      if cs.length = 0 then []
      else ((jsSliceLast cs limit).map (renderComment env)).reverse

/-- The whitelist `INCLUDED_CUSTOM_FIELDS`. -/
def includedCustomFields : List String :=
  ["Acceptance Criteria", "Action Plan", "Deliverables", "Epic Link",
   "Start Date", "Due Date", "Story Points", "Epic Link", "Team", "Flagged",
   "Time to investigate", "Time to bugs/issues fixed",
   "Time To Resolution SLA (Negotiated)", "Time to Investigate SLA (Actual)",
   "Time to Data Migration Implementation", "Test Case",
   "Additional Test Scope", "Labels", "Sprint", "Step to Reproduce",
   "Expected Results", "Actual Results", "Sprint", "Squad", "Design",
   "Atlassian project status"]

/-- One element of an array-valued custom field: an object (with the
properties the formatter reads) or a primitive already rendered by
`Array.prototype.join`. -/
inductive CFItem where
  | obj (name state value displayName : Option String)
  | prim (s : String)

/-- Render one array element of a custom field; an object matching none of
the property checks is rendered by `join` as `[object Object]`. -/
def renderCFItem : CFItem → String
  | .prim s => s
  | .obj name state value displayName =>
    if strTruthy name ∧ strTruthy state then
      name.getD "" ++ " (" ++ state.getD "" ++ ")"
    else if strTruthy value then value.getD ""
    else if strTruthy displayName then displayName.getD ""
    else if strTruthy name then name.getD ""
    else "[object Object]"

/-- A custom-field value, one constructor per branch of
`formatCustomFieldValue`; `json` carries the `JSON.stringify` rendering
used by the fallback branches (serialization is an environment builtin). -/
inductive CFValue where
  | nullish
  | docVal (d : JDoc) (json : String)
  | strVal (s : String)
  | objVal (value : Option String) (displayName : Option String) (json : String)
  | arrVal (items : List CFItem)
  | otherVal (json : String)

/-- `JiraFormatter.formatCustomFieldValue` (`null` becomes `none`). -/
def formatCustomFieldValue : CFValue → Option String
  | .nullish => none
  | .docVal d json =>
      if d.content.isSome then some (extractTextFromDocument (some d)) else some json
  | .strVal s => if s = "" then none else some s
  | .objVal value displayName json =>
      if strTruthy value then value
      else if strTruthy displayName then displayName
      else some json
  | .arrVal items => some (String.intercalate ", " (items.map renderCFItem))
  | .otherVal json => some json

/-- Field-mapping metadata (`{name, custom}`). -/
structure FieldInfo where
  name : String := ""
  custom : Bool := false
  deriving Repr, DecidableEq

/-- One surfaced custom field. -/
structure CustomFieldOut where
  id : String := ""
  name : String := ""
  value : String := ""
  deriving Repr, DecidableEq

/-- `JiraFormatter.extractCustomFields`: keep `customfield_*` keys whose
mapping is custom and whitelisted and whose formatted value is truthy. -/
def extractCustomFields (customEntries : List (String × CFValue))
    (fieldMappings : List (String × FieldInfo)) : List CustomFieldOut :=
  customEntries.filterMap (fun e =>
    if e.1.startsWith "customfield_" then
      match fieldMappings.lookup e.1 with
      | some info =>
        if info.custom then
          if includedCustomFields.contains info.name then
            match formatCustomFieldValue e.2 with
            | some v => if v ≠ "" then some ⟨e.1, info.name, v⟩ else none
            | none => none
          else none
        else none
      | none => none
    else none)

/-- A named object (`status`, `priority`, `issuetype`). -/
structure NameObj where
  name : Option String := none
  deriving Repr, DecidableEq

/-- The `fields` object of a raw JIRA issue; the dynamic `customfield_*`
properties are the `customEntries` association list. -/
structure JFields where
  summary : Option String := none
  description : Option JDoc := none
  status : Option NameObj := none
  priority : Option NameObj := none
  issuetype : Option NameObj := none
  assignee : Option PersonObj := none
  reporter : Option PersonObj := none
  created : Option String := none
  updated : Option String := none
  timespent : Option Nat := none
  comment : Option CommentContainer := none
  customEntries : List (String × CFValue) := []

/-- A raw JIRA issue `{key, fields}`. -/
structure JiraData where
  key : String := ""
  fields : Option JFields := none

/-- The structured result of `formatJiraResponse`. -/
structure FormattedJira where
  key : String := ""
  summary : String := ""
  description : String := ""
  status : String := ""
  priority : String := ""
  issueType : String := ""
  assignee : String := ""
  reporter : String := ""
  created : String := ""
  updated : String := ""
  timeSpent : String := ""
  recentComments : List RComment := []
  customFields : List CustomFieldOut := []
  url : String := ""
  deriving Repr, DecidableEq

/-- `obj?.name || default`. -/
def nameOr (o : Option NameObj) (dflt : String) : String :=
  match o with
  | some n => if strTruthy n.name then n.name.getD "" else dflt
  | none => dflt

/-- `person?.displayName || default`. -/
def displayNameOr (o : Option PersonObj) (dflt : String) : String :=
  match o with
  | some p => if strTruthy p.displayName then p.displayName.getD "" else dflt
  | none => dflt

/-- `JiraFormatter.formatJiraResponse` (mode-aware variant of
`src/utils/JiraFormatter.js`): description capped at 500 characters in
standard mode and 1000 in deep mode; 2 recent comments (bodies re-capped
at 200) in standard mode, 5 in deep mode. -/
def formatJiraResponse (env : JSDateEnv) (data : JiraData)
    (atlassianDomain : String) (deepDetails : Bool)
    (fieldMappings : List (String × FieldInfo) := []) : FormattedJira :=
  let fields := data.fields.getD {}
  let summary := if strTruthy fields.summary then fields.summary.getD ""
    else "No summary available"
  let descText := extractTextFromDocument fields.description
  let description :=
    jsSlice0 (if descText ≠ "" then descText else "No description available")
      (if deepDetails then 1000 else 500)
  let created := if strTruthy fields.created
    then env.toLocaleDateString (fields.created.getD "") else "Unknown"
  let updated := if strTruthy fields.updated
    then env.toLocaleDateString (fields.updated.getD "") else "Unknown"
  let timeSpent := match fields.timespent with
    | some n => if n ≠ 0 then formatTimeSpent n else "None"
    | none => "None"
  let recentComments :=
    if deepDetails then getRecentComments env fields.comment 5
    else (getRecentComments env fields.comment 2).map (fun c =>
      { c with body := if c.body ≠ "" then jsSlice0 c.body 200 else "No comment body" })
  { key := data.key, summary := summary, description := description,
    status := nameOr fields.status "Unknown",
    priority := nameOr fields.priority "Unknown",
    issueType := nameOr fields.issuetype "Unknown",
    assignee := displayNameOr fields.assignee "Unassigned",
    reporter := displayNameOr fields.reporter "Unknown",
    created := created, updated := updated, timeSpent := timeSpent,
    recentComments := recentComments,
    customFields := extractCustomFields fields.customEntries fieldMappings,
    url := "https://" ++ atlassianDomain ++ "/browse/" ++ data.key }

/-! ## Theorems -/

/-- The JSON-RPC error code of a response body, when it is an error. -/
def respErrorCode (r : MCPResponse) : Option Int :=
  match r.body with
  | some (.rpcError c _ _) => some c
  | _ => none

/-- Status of the ESM processor's result when it did not throw. -/
def sharedStatus (r : Except (Int × String) MCPResponse) : Option Nat :=
  match r with
  | .ok resp => some resp.status
  | .error _ => none

/-- Error code of the ESM processor's result when it did not throw. -/
def sharedErrorCode (r : Except (Int × String) MCPResponse) : Option Int :=
  match r with
  | .ok resp => respErrorCode resp
  | .error _ => none

/-- Claim C1, counterexample: on `{jsonrpc:"2.0", method:"bogus"}` the
`processMCPRequest` of `src/shared/mcp-processor.js` answers with HTTP
status 400, not the claimed 404. -/
theorem c1_shared_unknown_method_cex :
    sharedStatus (Shared.processMCPRequest (fun _ _ => none)
      (some { jsonrpc := some "2.0", method := some "bogus", params := none,
              id := some 1 })) = some 400 ∧ (400 : Nat) ≠ 404 := by
  constructor
  · rfl
  · decide

/-- Claim C1 (amended): the serverless `processMCPRequest`
(`src/unnamed/part_015`) behaves exactly as claimed — status 400 with code
-32600 when `jsonrpc` is not `"2.0"`, status 400 with code -32600 when
`jsonrpc` is `"2.0"` but `method` is missing (or empty), and status 404
with code -32601 when `method` is present but is none of the four
recognized methods; the ESM shared processor (`src/shared/mcp-processor.js`)
agrees on the `jsonrpc` check but answers status 400 with code -32601 for
both a missing and an unrecognized method. -/
theorem c1_processMCPRequest_envelope
    (runTool : String → Option String → Option ToolOutcome) (b : MCPBody) :
    (b.jsonrpc ≠ some "2.0" →
      (Netlify.processMCPRequest runTool (some b)).status = 400 ∧
      respErrorCode (Netlify.processMCPRequest runTool (some b)) = some (-32600) ∧
      sharedStatus (Shared.processMCPRequest runTool (some b)) = some 400 ∧
      sharedErrorCode (Shared.processMCPRequest runTool (some b)) = some (-32600)) ∧
    (b.jsonrpc = some "2.0" → ¬ strTruthy b.method →
      (Netlify.processMCPRequest runTool (some b)).status = 400 ∧
      respErrorCode (Netlify.processMCPRequest runTool (some b)) = some (-32600) ∧
      sharedStatus (Shared.processMCPRequest runTool (some b)) = some 400 ∧
      sharedErrorCode (Shared.processMCPRequest runTool (some b)) = some (-32601)) ∧
    (∀ m : String, b.jsonrpc = some "2.0" → b.method = some m → m ≠ "" →
      m ∉ ["initialize", "notifications/initialized", "tools/list", "tools/call"] →
      (Netlify.processMCPRequest runTool (some b)).status = 404 ∧
      respErrorCode (Netlify.processMCPRequest runTool (some b)) = some (-32601) ∧
      sharedStatus (Shared.processMCPRequest runTool (some b)) = some 400 ∧
      sharedErrorCode (Shared.processMCPRequest runTool (some b)) = some (-32601)) := by
  refine ⟨?_, ?_, ?_⟩
  · intro h
    have hcond : (¬ strTruthy b.jsonrpc ∨ b.jsonrpc ≠ some "2.0") := Or.inr h
    simp [Netlify.processMCPRequest, Shared.processMCPRequest, hcond, h,
      respErrorCode, sharedStatus, sharedErrorCode]
  · intro h1 h2
    have hj : strTruthy b.jsonrpc := by simp [h1, strTruthy]
    rcases hm : b.method with _ | m
    · simp [Netlify.processMCPRequest, Shared.processMCPRequest, h1, hm,
        respErrorCode, sharedStatus, sharedErrorCode, strTruthy]
    · have hme : m = "" := by
        by_contra hne
        exact h2 (by simp [hm, strTruthy, hne])
      subst hme
      simp [Netlify.processMCPRequest, Shared.processMCPRequest, h1, hm,
        respErrorCode, sharedStatus, sharedErrorCode, strTruthy]
  · intro m h1 hm hne hmem
    simp only [List.mem_cons, List.not_mem_nil, or_false, not_or] at hmem
    obtain ⟨m1, m2, m3, m4⟩ := hmem
    simp [Netlify.processMCPRequest, Shared.processMCPRequest, h1, hm,
      respErrorCode, sharedStatus, sharedErrorCode, strTruthy, hne, m1, m2, m3, m4]

/-- Claim C1, witness: the three scenarios instantiated at concrete
bodies. -/
theorem c1_processMCPRequest_envelope_witness :
    ((Netlify.processMCPRequest (fun _ _ => none)
        (some { jsonrpc := some "1.0", method := some "initialize", params := none,
                id := some 1 })).status = 400 ∧
      respErrorCode (Netlify.processMCPRequest (fun _ _ => none)
        (some { jsonrpc := some "1.0", method := some "initialize", params := none,
                id := some 1 })) = some (-32600) ∧
      sharedStatus (Shared.processMCPRequest (fun _ _ => none)
        (some { jsonrpc := some "1.0", method := some "initialize", params := none,
                id := some 1 })) = some 400 ∧
      sharedErrorCode (Shared.processMCPRequest (fun _ _ => none)
        (some { jsonrpc := some "1.0", method := some "initialize", params := none,
                id := some 1 })) = some (-32600)) ∧
    ((Netlify.processMCPRequest (fun _ _ => none)
        (some { jsonrpc := some "2.0", method := none, params := none,
                id := some 1 })).status = 400 ∧
      respErrorCode (Netlify.processMCPRequest (fun _ _ => none)
        (some { jsonrpc := some "2.0", method := none, params := none,
                id := some 1 })) = some (-32600) ∧
      sharedStatus (Shared.processMCPRequest (fun _ _ => none)
        (some { jsonrpc := some "2.0", method := none, params := none,
                id := some 1 })) = some 400 ∧
      sharedErrorCode (Shared.processMCPRequest (fun _ _ => none)
        (some { jsonrpc := some "2.0", method := none, params := none,
                id := some 1 })) = some (-32601)) ∧
    ((Netlify.processMCPRequest (fun _ _ => none)
        (some { jsonrpc := some "2.0", method := some "bogus2", params := none,
                id := some 1 })).status = 404 ∧
      respErrorCode (Netlify.processMCPRequest (fun _ _ => none)
        (some { jsonrpc := some "2.0", method := some "bogus2", params := none,
                id := some 1 })) = some (-32601) ∧
      sharedStatus (Shared.processMCPRequest (fun _ _ => none)
        (some { jsonrpc := some "2.0", method := some "bogus2", params := none,
                id := some 1 })) = some 400 ∧
      sharedErrorCode (Shared.processMCPRequest (fun _ _ => none)
        (some { jsonrpc := some "2.0", method := some "bogus2", params := none,
                id := some 1 })) = some (-32601)) :=
  ⟨(c1_processMCPRequest_envelope (fun _ _ => none)
      { jsonrpc := some "1.0", method := some "initialize", params := none,
        id := some 1 }).1 (by decide),
   (c1_processMCPRequest_envelope (fun _ _ => none)
      { jsonrpc := some "2.0", method := none, params := none,
        id := some 1 }).2.1 (by decide) (by decide),
   (c1_processMCPRequest_envelope (fun _ _ => none)
      { jsonrpc := some "2.0", method := some "bogus2", params := none,
        id := some 1 }).2.2 "bogus2" (by decide) (by decide) (by decide) (by decide)⟩

/-- A concrete raw issue used as evaluation input. -/
def sampleIssue : IssueDetails := { id := some "1", title := some "T" }

/-- Two concrete stack frames in upstream (innermost-last) order. -/
def sampleFrames : List Frame :=
  [{ filename := some "app/a.js", lineno := some 1, function := some "f" },
   { filename := some "lib/b.js", lineno := some 2, function := some "g" }]

/-- The `values[0]` object of the sample event's exception entry. -/
def sampleValue : ValueObj :=
  { vtype := some "Error", value := some "boom",
    stacktrace := some { frames := some sampleFrames } }

/-- A concrete latest event whose first exception entry carries two stack
frames in upstream (innermost-last) order. -/
def sampleEvent : LatestEvent :=
  { entries := some [{ etype := "exception", data := some { values := some [sampleValue] } }] }

/-- Claim C2: `formatIssueDetails` is **not** a pure function of its
input.  On `sampleIssue` with `sampleEvent`, the first call reverses the
event's frames array in place (`Array.prototype.reverse`), so the event
object afterwards differs from the original, and a second call on the
same (now mutated) raw object renders the stack trace in the opposite
order, so the two outputs are not identical. -/
theorem c2_formatIssueDetails_not_pure :
    (formatIssueDetails (some sampleIssue) none (some sampleEvent) false).2
        ≠ some sampleEvent ∧
    (formatIssueDetails (some sampleIssue) none (some sampleEvent) false).1.map
        (fun f => f.stacktrace)
      ≠ (formatIssueDetails (some sampleIssue) none
          (formatIssueDetails (some sampleIssue) none (some sampleEvent) false).2
          false).1.map (fun f => f.stacktrace) := by
  constructor
  · decide
  · decide

/-- Claim C5: when the auxiliary tags fetch throws, the issue-details
handler still invokes `formatIssueDetails` on the primary issue data with
`tags = null`, and the result carries no `tagsSummary` key; likewise, when
the latest-event fetch throws, the result is produced with no `stacktrace`
and no `exception` key. -/
theorem c5_issue_details_graceful_degradation (flags : DetailFlags)
    (issue : IssueDetails) (evFetch : Except String LatestEvent)
    (tFetch : Except String (List TagObj)) (msg msg2 : String) :
    (getSentryIssueDetailsCore flags issue (Except.error msg) evFetch
      = (formatIssueDetails (some issue) none
          (if flags.trace ≠ some false ∨ flags.deepDetails = some true
            then evFetch.toOption else none)
          (flags.deepDetails = some true)).1) ∧
    ((getSentryIssueDetailsCore flags issue (Except.error msg) evFetch).map
        (fun f => f.tagsSummary) = some none) ∧
    ((getSentryIssueDetailsCore flags issue tFetch (Except.error msg2)).map
        (fun g => (g.stacktrace, g.exception)) = some (none, none)) := by
  refine ⟨?_, ?_, ?_⟩
  · simp [getSentryIssueDetailsCore, Except.toOption]
  · simp [getSentryIssueDetailsCore, formatIssueDetails, Except.toOption]
  · simp [getSentryIssueDetailsCore, formatIssueDetails, stackTraceText,
      exceptionBlock, Except.toOption]

/-- Every quoted filter clause contains a double-quote character. -/
theorem mem_quote_append (p s : String) : '"' ∈ (p ++ s ++ "\"").data := by
  simp [String.data_append, List.mem_append]

/-- A quoted filter clause is never the `is:unresolved` default (the
default contains no double quote). -/
theorem quoted_ne_unresolved (p s : String) : p ++ s ++ "\"" ≠ "is:unresolved" := by
  intro h
  have hq := mem_quote_append p s
  rw [h] at hq
  revert hq
  decide

/-- Claim C4: with no `query` option and no filter fields, the emitted
search string is exactly `is:unresolved` (and it is the sole `query`
parameter sent upstream); with any filters, the default is still the
first clause; with an explicit empty `query`, no clause of the search
string is `is:unresolved`. -/
theorem c4_query_defaulting (env : JSDateEnv) (now : Int) (o : IssueListOptions) :
    (o.query = none → o.issue = none → o.excludeErrorType = none →
      o.errorMessage = none →
      queryParam o = [("query", "is:unresolved")] ∧
      ("query", "is:unresolved") ∈ Netlify.getSentryIssuesList env now o) ∧
    (o.query = none → (buildQueryParts o).head? = some "is:unresolved") ∧
    (o.query = some "" → "is:unresolved" ∉ buildQueryParts o) := by
  refine ⟨?_, ?_, ?_⟩
  · intro hq hi he hm
    have hqp : queryParam o = [("query", "is:unresolved")] := by
      simp [queryParam, buildQueryParts, hq, hi, he, hm, strTruthy]
      decide
    refine ⟨hqp, ?_⟩
    simp [Netlify.getSentryIssuesList, List.mem_append, hqp]
  · intro hq
    simp [buildQueryParts, hq]
  · intro hq
    have h1 : "is:unresolved" ∉
        (if strTruthy o.issue then ["issue:\"" ++ o.issue.getD "" ++ "\""] else []) := by
      split
      · simp only [List.mem_singleton]
        exact fun h => quoted_ne_unresolved _ _ h.symm
      · simp
    have h2 : "is:unresolved" ∉
        (if strTruthy o.excludeErrorType then
          ["!error.type:\"" ++ o.excludeErrorType.getD "" ++ "\""] else []) := by
      split
      · simp only [List.mem_singleton]
        exact fun h => quoted_ne_unresolved _ _ h.symm
      · simp
    have h3 : "is:unresolved" ∉
        (if strTruthy o.errorMessage then
          ["message:\"" ++ o.errorMessage.getD "" ++ "\""] else []) := by
      split
      · simp only [List.mem_singleton]
        exact fun h => quoted_ne_unresolved _ _ h.symm
      · simp
    have hbq : buildQueryParts o =
        (if strTruthy o.issue then ["issue:\"" ++ o.issue.getD "" ++ "\""] else [])
        ++ (if strTruthy o.excludeErrorType then
              ["!error.type:\"" ++ o.excludeErrorType.getD "" ++ "\""] else [])
        ++ (if strTruthy o.errorMessage then
              ["message:\"" ++ o.errorMessage.getD "" ++ "\""] else []) := by
      simp [buildQueryParts, hq]
    rw [hbq]
    simp only [List.mem_append, or_assoc]
    intro hmem
    rcases hmem with h | h | h
    · exact h1 h
    · exact h2 h
    · exact h3 h

/-- Claim C4, witness: the two query modes at concrete options. -/
theorem c4_query_defaulting_witness :
    (queryParam { } = [("query", "is:unresolved")] ∧
      ("query", "is:unresolved") ∈ Netlify.getSentryIssuesList
        ⟨fun _ => "", fun _ => 0, fun _ => 0, fun _ => 0, fun s => s, fun s => s⟩ 0 { }) ∧
    ((buildQueryParts { query := none, issue := some "I1" }).head?
        = some "is:unresolved") ∧
    ("is:unresolved" ∉ buildQueryParts { query := some "", issue := some "I1" }) :=
  ⟨(c4_query_defaulting
      ⟨fun _ => "", fun _ => 0, fun _ => 0, fun _ => 0, fun s => s, fun s => s⟩ 0
      { }).1 rfl rfl rfl rfl,
   (c4_query_defaulting
      ⟨fun _ => "", fun _ => 0, fun _ => 0, fun _ => 0, fun s => s, fun s => s⟩ 0
      { query := none, issue := some "I1" }).2.1 rfl,
   (c4_query_defaulting
      ⟨fun _ => "", fun _ => 0, fun _ => 0, fun _ => 0, fun s => s, fun s => s⟩ 0
      { query := some "", issue := some "I1" }).2.2 rfl⟩

/-- Membership in a conditional list with empty alternative implies
membership in the list. -/
theorem mem_ite_nil {α : Type} {c : Prop} [Decidable c] {l : List α} {a : α}
    (h : a ∈ (if c then l else [])) : a ∈ l := by
  split at h
  · exact h
  · simp at h

/-- Every pair emitted for a scalar-or-array option carries that option's
key. -/
theorem arrOrOneParams_key (k : String) (x : Option (ArrOrOne String)) :
    ∀ p ∈ arrOrOneParams k x, p.1 = k := by
  intro p hp
  match x with
  | none => simp [arrOrOneParams] at hp
  | some (.one v) =>
    simp only [arrOrOneParams] at hp
    have h := mem_ite_nil hp
    simp only [List.mem_singleton] at h
    simp [h]
  | some (.many l) =>
    simp only [arrOrOneParams, List.mem_map] at hp
    obtain ⟨v, _, h⟩ := hp
    simp [← h]

/-- Every pair emitted for an `expand`/`collapse` option carries that
option's key. -/
theorem listFieldParams_key (k : String) (x : Option (List String)) :
    ∀ p ∈ listFieldParams k x, p.1 = k := by
  intro p hp
  match x with
  | none => simp [listFieldParams] at hp
  | some l =>
    simp only [listFieldParams] at hp
    have h := mem_ite_nil hp
    simp only [List.mem_map] at h
    obtain ⟨v, _, h⟩ := h
    simp [← h]

/-- With a truthy `statsPeriod`, no emitted parameter is named `start` or
`end`. -/
theorem netlify_statsPeriod_no_dates (env : JSDateEnv) (now : Int)
    (o : IssueListOptions) (hs : strTruthy o.statsPeriod = true) :
    ∀ p ∈ Netlify.getSentryIssuesList env now o,
      p.1 ≠ "start" ∧ p.1 ≠ "end" := by
  intro p hp
  simp only [Netlify.getSentryIssuesList, hs, if_true, List.append_assoc,
    List.mem_append] at hp
  rcases hp with hp | hp | hp | hp | hp | hp
  · simp only [seedParams, List.mem_cons, List.not_mem_nil, or_false] at hp
    rcases hp with h | h | h <;> simp [h]
  · simp only [queryParam] at hp
    have h := mem_ite_nil hp
    simp only [List.mem_singleton] at h
    simp [h]
  · simp only [List.mem_singleton] at hp
    simp [hp]
  · simp only [middleParams, List.append_assoc, List.mem_append] at hp
    rcases hp with hp | hp | hp
    · have h := mem_ite_nil hp
      simp only [List.mem_singleton] at h
      simp [h]
    · have h := arrOrOneParams_key _ _ _ hp
      simp [h]
    · have h := arrOrOneParams_key _ _ _ hp
      simp [h]
  · have h := listFieldParams_key _ _ _ hp
    simp [h]
  · simp only [tailParams, List.mem_append] at hp
    rcases hp with hp | hp
    · have h := mem_ite_nil hp
      simp only [List.mem_singleton] at h
      simp [h]
    · simp only [List.mem_singleton] at hp
      simp [hp]

/-- Claim C3: on the no-`statsPeriod` path the ESM `SentryService`
(`src/services/SentryService.js`) throws (`params.f` is not a
`URLSearchParams` method), while the serverless copy — the intended
behavior — emits `start`/`end` equal to the previous Monday-through-Sunday
week: `start` is a Monday 00:00:00.000 UTC, `end` is the following Sunday
at 23:59:59.999, and that Sunday is the most recent one not after today;
a truthy `statsPeriod` suppresses both `start` and `end` and is itself
emitted. -/
theorem c3_date_defaulting (env : JSDateEnv) (now : Int) (o : IssueListOptions) :
    (¬ strTruthy o.statsPeriod →
      Src.getSentryIssuesList env now o
        = Except.error "TypeError: params.f is not a function") ∧
    (¬ strTruthy o.statsPeriod → o.dateFrom = none → o.dateTo = none →
      ("start", formatDateForSentry (stripMsZ (env.toISOString (mondayStartMs now))))
          ∈ Netlify.getSentryIssuesList env now o ∧
      ("end", formatDateForSentry (stripMsZ (env.toISOString (sundayEndMs now))))
          ∈ Netlify.getSentryIssuesList env now o ∧
      getUTCDay (mondayStartMs now) = 1 ∧
      mondayStartMs now % msPerDay = 0 ∧
      sundayEndMs now = mondayStartMs now + 6 * msPerDay + (msPerDay - 1) ∧
      getUTCDay (sundayEndMs now) = 0 ∧
      sundayEndMs now % msPerDay = msPerDay - 1 ∧
      dayNumber (sundayEndMs now) ≤ dayNumber now ∧
      dayNumber now - dayNumber (sundayEndMs now) < 7) ∧
    (strTruthy o.statsPeriod →
      (∀ p ∈ Netlify.getSentryIssuesList env now o,
        p.1 ≠ "start" ∧ p.1 ≠ "end") ∧
      ("statsPeriod", o.statsPeriod.getD "") ∈ Netlify.getSentryIssuesList env now o) := by
  refine ⟨?_, ?_, ?_⟩
  · intro hs
    simp [Src.getSentryIssuesList, hs]
  · intro hs hdf hdt
    refine ⟨?_, ?_, ?_, ?_, ?_, ?_, ?_, ?_, ?_⟩
    · simp [Netlify.getSentryIssuesList, hs, dateRangeParams, getPreviousWeekRange,
        hdf, hdt, List.mem_append]
    · simp [Netlify.getSentryIssuesList, hs, dateRangeParams, getPreviousWeekRange,
        hdf, hdt, List.mem_append]
    · simp only [getUTCDay, dayNumber, mondayStartMs, sundayEndMs, msPerDay]
      omega
    · simp only [mondayStartMs, getUTCDay, dayNumber, msPerDay]
      omega
    · simp only [mondayStartMs, sundayEndMs, msPerDay]
      ring
    · simp only [getUTCDay, dayNumber, mondayStartMs, sundayEndMs, msPerDay]
      omega
    · simp only [sundayEndMs, getUTCDay, dayNumber, msPerDay]
      omega
    · simp only [sundayEndMs, getUTCDay, dayNumber, msPerDay]
      omega
    · simp only [sundayEndMs, getUTCDay, dayNumber, msPerDay]
      omega
  · intro hs
    refine ⟨netlify_statsPeriod_no_dates env now o hs, ?_⟩
    simp [Netlify.getSentryIssuesList, hs, List.mem_append]

/-- Claim C3, witness: the three branches instantiated at day 10 of the
epoch (a Sunday) and at a concrete `statsPeriod`. -/
theorem c3_date_defaulting_witness :
    (Src.getSentryIssuesList
        ⟨fun _ => "", fun _ => 0, fun _ => 0, fun _ => 0, fun s => s, fun s => s⟩
        864000000 { }
      = Except.error "TypeError: params.f is not a function") ∧
    (("start", formatDateForSentry (stripMsZ "")) ∈ Netlify.getSentryIssuesList
        ⟨fun _ => "", fun _ => 0, fun _ => 0, fun _ => 0, fun s => s, fun s => s⟩
        864000000 { }) ∧
    ((∀ p ∈ Netlify.getSentryIssuesList
        ⟨fun _ => "", fun _ => 0, fun _ => 0, fun _ => 0, fun s => s, fun s => s⟩
        864000000 { statsPeriod := some "7d" },
      p.1 ≠ "start" ∧ p.1 ≠ "end") ∧
      ("statsPeriod", "7d") ∈ Netlify.getSentryIssuesList
        ⟨fun _ => "", fun _ => 0, fun _ => 0, fun _ => 0, fun s => s, fun s => s⟩
        864000000 { statsPeriod := some "7d" }) :=
  ⟨(c3_date_defaulting
      ⟨fun _ => "", fun _ => 0, fun _ => 0, fun _ => 0, fun s => s, fun s => s⟩
      864000000 { }).1 (by decide),
   ((c3_date_defaulting
      ⟨fun _ => "", fun _ => 0, fun _ => 0, fun _ => 0, fun s => s, fun s => s⟩
      864000000 { }).2.1 (by decide) rfl rfl).1,
   (c3_date_defaulting
      ⟨fun _ => "", fun _ => 0, fun _ => 0, fun _ => 0, fun s => s, fun s => s⟩
      864000000 { statsPeriod := some "7d" }).2.2 (by decide)⟩

/-- A date environment whose locale renderers are the identity. -/
def idEnv : JSDateEnv :=
  ⟨fun _ => "", fun _ => 0, fun _ => 0, fun _ => 0, fun s => s, fun s => s⟩

/-- A comment created on 2024-01-01. -/
def earlyComment : JComment :=
  { author := some { displayName := some "Ann" }, created := some "2024-01-01T10:00:00Z" }

/-- A comment created one day later. -/
def lateComment : JComment :=
  { author := some { displayName := some "Bob" }, created := some "2024-01-02T10:00:00Z" }

/-- The container holding the two sample comments in ascending order. -/
def twoCommentContainer : CommentContainer :=
  { comments := some [earlyComment, lateComment] }

/-- Raw issue fields holding the two-comment container. -/
def twoCommentFields : JFields := { comment := some twoCommentContainer }

/-- A raw JIRA issue holding the two-comment container. -/
def twoCommentData : JiraData := { key := "K", fields := some twoCommentFields }

/-- Claim C6, counterexample: on a comment container holding two comments
in chronological-ascending order, the formatter (standard mode, K = 2)
presents them newest-first — the displayed `created` values are in
descending, not ascending, order. -/
theorem c6_comment_order_cex :
    ((formatJiraResponse idEnv twoCommentData "dom" false []).recentComments.map
        (fun c => c.created)
      = ["2024-01-02T10:00:00Z", "2024-01-01T10:00:00Z"]) ∧
    (["2024-01-02T10:00:00Z", "2024-01-01T10:00:00Z"] : List String)
      ≠ ["2024-01-01T10:00:00Z", "2024-01-02T10:00:00Z"] := by
  constructor
  · decide
  · decide

/-- The 500-plus-ellipsis body truncation never exceeds 503 characters. -/
theorem truncatedBody_length (s : String) :
    (if s.length > 500 then jsSlice0 s 500 ++ "..." else s).length ≤ 503 := by
  split
  · rw [String.length_append]
    simp only [jsSlice0, String.length_mk, List.length_take]
    have h3 : ("..." : String).length = 3 := by decide
    rw [h3]
    omega
  · omega

/-- Claim C6 (amended): the ticket formatter selects the last K comments
(K = 2 in standard mode, with each body re-capped at 200 characters; K = 5
in deep mode) and presents them **in reverse container order** — entry `i`
of the output renders raw comment `n - 1 - i` — i.e. newest-first when the
container is chronologically ascending; each entry is rendered with the
author's display name, locale created date, locale created time, and a
body truncated to at most 503 characters (500 plus an ellipsis). -/
theorem c6_recent_comments_selection (env : JSDateEnv) (cs : List JComment)
    (limit : Nat) (data : JiraData) (fields : JFields) (dom : String)
    (maps : List (String × FieldInfo)) (hf : data.fields = some fields) :
    ((formatJiraResponse env data dom true maps).recentComments
        = getRecentComments env fields.comment 5) ∧
    ((formatJiraResponse env data dom false maps).recentComments
        = (getRecentComments env fields.comment 2).map (fun c =>
            { c with body := if c.body ≠ "" then jsSlice0 c.body 200
                             else "No comment body" })) ∧
    ((getRecentComments env (some ⟨some cs⟩) limit).length = min limit cs.length) ∧
    (∀ i (hi : i < (getRecentComments env (some ⟨some cs⟩) limit).length)
        (hj : cs.length - 1 - i < cs.length),
      (getRecentComments env (some ⟨some cs⟩) limit).get ⟨i, hi⟩
        = renderComment env (cs.get ⟨cs.length - 1 - i, hj⟩)) ∧
    (∀ c : JComment, (renderComment env c).body.length ≤ 503) := by
  refine ⟨?_, ?_, ?_, ?_, ?_⟩
  · simp [formatJiraResponse, hf]
  · simp [formatJiraResponse, hf]
  · by_cases hcs : cs.length = 0
    · simp [getRecentComments, hcs]
    · simp [getRecentComments, hcs, jsSliceLast]
      omega
  · intro i hi hj
    by_cases hcs : cs.length = 0
    · rw [List.length_eq_zero] at hcs
      subst hcs
      simp [getRecentComments] at hi
    · have h1 : i < min limit cs.length := by
        have hlen : (getRecentComments env (some ⟨some cs⟩) limit).length
            = min limit cs.length := by
          simp [getRecentComments, hcs, jsSliceLast]
          omega
        rw [← hlen]
        exact hi
      simp only [getRecentComments, hcs, if_false, List.get_eq_getElem, jsSliceLast]
      rw [List.getElem_reverse, List.getElem_map, List.getElem_drop]
      have hidx : cs.length - limit
            + ((List.map (renderComment env)
                (List.drop (cs.length - limit) cs)).length - 1 - i)
          = cs.length - 1 - i := by
        simp only [List.length_map, List.length_drop]
        omega
      simp only [hidx]
  · intro c
    simp only [renderComment]
    exact truncatedBody_length _

/-- Claim C6, witness: the selection/order clause at the concrete
two-comment container. -/
theorem c6_recent_comments_selection_witness :
    ((formatJiraResponse idEnv twoCommentData "dom" true []).recentComments
      = getRecentComments idEnv (some twoCommentContainer) 5) ∧
    ((getRecentComments idEnv (some ⟨some [earlyComment, lateComment]⟩) 2).length
      = min 2 2) ∧
    ((getRecentComments idEnv (some ⟨some [earlyComment, lateComment]⟩) 2).get
        ⟨0, by decide⟩
      = renderComment idEnv ([earlyComment, lateComment].get ⟨1, by decide⟩)) :=
  ⟨((c6_recent_comments_selection idEnv [earlyComment, lateComment] 2
      twoCommentData twoCommentFields "dom" [] rfl).1),
   ((c6_recent_comments_selection idEnv [earlyComment, lateComment] 2
      twoCommentData twoCommentFields "dom" [] rfl).2.2.1),
   ((c6_recent_comments_selection idEnv [earlyComment, lateComment] 2
      twoCommentData twoCommentFields "dom" [] rfl).2.2.2.1 0 (by decide) (by decide))⟩

/-- Claim C7: when the extracted description text exceeds the 500-member
standard cap, standard mode returns a description of at most 500
characters; the deep-mode cap (1000) is strictly larger, and the deep-mode
description of the same input is at least as long as the standard one
(and at most 1000 characters). -/
theorem c7_description_truncation (env : JSDateEnv) (data : JiraData)
    (fields : JFields) (dom : String) (maps : List (String × FieldInfo))
    (hf : data.fields = some fields)
    (h : 500 < (extractTextFromDocument fields.description).length) :
    (formatJiraResponse env data dom false maps).description.length ≤ 500 ∧
    (500 : Nat) < 1000 ∧
    (formatJiraResponse env data dom false maps).description.length ≤
      (formatJiraResponse env data dom true maps).description.length ∧
    (formatJiraResponse env data dom true maps).description.length ≤ 1000 := by
  have hne : extractTextFromDocument fields.description ≠ "" := by
    intro he
    rw [he] at h
    simp at h
  refine ⟨?_, by omega, ?_, ?_⟩ <;>
    simp [formatJiraResponse, hf, hne, jsSlice0, String.length_mk, List.length_take] <;>
    omega

/-- A 600-character description text. -/
def bigDescription : JDoc :=
  { content := some (JNodes.ofList
      [.paragraph (some (JNodes.ofList
        [.textNode (some (String.mk (List.replicate 600 'a')))]))]) }

/-- Raw issue fields holding the 600-character description. -/
def bigDescFields : JFields := { description := some bigDescription }

/-- A raw JIRA issue holding the 600-character description. -/
def bigDescData : JiraData := { key := "K", fields := some bigDescFields }

set_option maxRecDepth 8000 in
/-- Claim C7, witness: the truncation bounds at a concrete 600-character
description. -/
theorem c7_description_truncation_witness :
    (500 : Nat) < (extractTextFromDocument (some bigDescription)).length ∧
    (formatJiraResponse idEnv bigDescData "dom" false []).description.length ≤ 500 ∧
    (formatJiraResponse idEnv bigDescData "dom" false []).description.length ≤
      (formatJiraResponse idEnv bigDescData "dom" true []).description.length :=
  ⟨by decide,
   (c7_description_truncation idEnv bigDescData bigDescFields "dom" [] rfl
      (by decide)).1,
   (c7_description_truncation idEnv bigDescData bigDescFields "dom" [] rfl
      (by decide)).2.2.1⟩

/-- Claim C8: with `relativeDays = N` (N positive) and no truthy
`statsPeriod`, the handler's option assembly sets `dateFrom` to the ISO
serialization of the start of the day N days before now (a day-aligned
instant exactly N day-indices back) and `dateTo` to the last millisecond
of the current day, and those two serialized values are what the service
emits as the upstream `start`/`end` query parameters. -/
theorem c8_relative_days (env : JSDateEnv) (now now2 : Int) (args : IssuesArgs)
    (N : Nat) (hN : args.relativeDays = some N) (hpos : 0 < N)
    (hs : ¬ strTruthy args.statsPeriod)
    (hiso : ∀ t : Int, env.toISOString t ≠ "") :
    ((assembleIssueOptions env now args).dateFrom
        = some (env.toISOString (relStartMs now N))) ∧
    ((assembleIssueOptions env now args).dateTo
        = some (env.toISOString (relEndMs now))) ∧
    relStartMs now N % msPerDay = 0 ∧
    dayNumber now - dayNumber (relStartMs now N) = N ∧
    relEndMs now = dayNumber now * msPerDay + (msPerDay - 1) ∧
    dayNumber (relEndMs now) = dayNumber now ∧
    (("start", formatDateForSentry (env.toISOString (relStartMs now N)))
        ∈ Netlify.getSentryIssuesList env now2 (assembleIssueOptions env now args)) ∧
    (("end", formatDateForSentry (env.toISOString (relEndMs now)))
        ∈ Netlify.getSentryIssuesList env now2 (assembleIssueOptions env now args)) := by
  have hNt : natTruthy (some N) = true := by
    simp [natTruthy]
    omega
  have hcond : (natTruthy args.relativeDays ∧ ¬ strTruthy args.statsPeriod) := by
    refine ⟨?_, hs⟩
    rw [hN]
    exact hNt
  have hdf : (assembleIssueOptions env now args).dateFrom
      = some (env.toISOString (relStartMs now N)) := by
    simp [assembleIssueOptions, hcond, hN, hNt, calculateRelativeDates]
  have hdt : (assembleIssueOptions env now args).dateTo
      = some (env.toISOString (relEndMs now)) := by
    simp [assembleIssueOptions, hcond, hN, hNt, calculateRelativeDates]
  have hsp : (assembleIssueOptions env now args).statsPeriod = args.statsPeriod := by
    simp [assembleIssueOptions, hcond, hN, hNt]
  refine ⟨hdf, hdt, ?_, ?_, ?_, ?_, ?_, ?_⟩
  · simp only [relStartMs, dayNumber, msPerDay]
    omega
  · simp only [relStartMs, dayNumber, msPerDay]
    omega
  · simp only [relEndMs, dayNumber, msPerDay]
  · simp only [relEndMs, dayNumber, msPerDay]
    omega
  · have hst : ¬ strTruthy (assembleIssueOptions env now args).statsPeriod := by
      rw [hsp]; exact hs
    simp [Netlify.getSentryIssuesList, hst, dateRangeParams, hdf, hdt, hiso,
      List.mem_append]
  · have hst : ¬ strTruthy (assembleIssueOptions env now args).statsPeriod := by
      rw [hsp]; exact hs
    simp [Netlify.getSentryIssuesList, hst, dateRangeParams, hdf, hdt, hiso,
      List.mem_append]

/-- A date environment whose ISO renderer is a nonempty constant. -/
def isoEnv : JSDateEnv :=
  ⟨fun _ => "T", fun _ => 0, fun _ => 0, fun _ => 0, fun s => s, fun s => s⟩

/-- Claim C8, witness: three days and 123 ms into the epoch with N = 2. -/
theorem c8_relative_days_witness :
    ((assembleIssueOptions isoEnv (3 * 86400000 + 123)
        { relativeDays := some 2 }).dateFrom
      = some (isoEnv.toISOString (relStartMs (3 * 86400000 + 123) 2))) ∧
    ((assembleIssueOptions isoEnv (3 * 86400000 + 123)
        { relativeDays := some 2 }).dateTo
      = some (isoEnv.toISOString (relEndMs (3 * 86400000 + 123)))) ∧
    dayNumber (3 * 86400000 + 123) - dayNumber (relStartMs (3 * 86400000 + 123) 2)
      = 2 :=
  have h := c8_relative_days isoEnv (3 * 86400000 + 123) 0 { relativeDays := some 2 }
    2 rfl (by decide) (by decide) (fun _ => by simp [isoEnv])
  ⟨h.1, h.2.1, h.2.2.2.1⟩

/-- Every tag summary keeps at most `topN` values. -/
theorem summarizeTag_length (tagObj : Option TagObj) (topN : Nat) :
    (summarizeTag tagObj topN).length ≤ topN := by
  match tagObj with
  | none => simp [summarizeTag]
  | some t =>
    match htv : t.topValues with
    | none => simp [summarizeTag, htv]
    | some tvs =>
      simp only [summarizeTag, htv, List.length_map, List.length_take]
      omega

/-- `upsert` preserves a property of all stored values, given the new
value satisfies it. -/
theorem upsert_preserve {P : List SummaryEntry → Prop}
    {l : List (String × List SummaryEntry)} {k : String} {v : List SummaryEntry}
    (hl : ∀ kv ∈ l, P kv.2) (hv : P v) : ∀ kv ∈ upsert l k v, P kv.2 := by
  intro kv hkv
  unfold upsert at hkv
  split at hkv
  · simp only [List.mem_map] at hkv
    obtain ⟨p, hp, he⟩ := hkv
    by_cases hpk : p.1 = k
    · rw [if_pos hpk] at he
      rw [← he]
      exact hv
    · rw [if_neg hpk] at he
      rw [← he]
      exact hl p hp
  · rcases List.mem_append.mp hkv with h | h
    · exact hl kv h
    · simp only [List.mem_singleton] at h
      rw [h]
      exact hv

/-- Every value list stored by the `extractRelevantTags` fold keeps at
most `topN` entries. -/
theorem foldl_addRelevantTag_length (tags : List TagObj) (topN : Nat)
    (acc : List (String × List SummaryEntry))
    (hacc : ∀ kv ∈ acc, kv.2.length ≤ topN) :
    ∀ kv ∈ tags.foldl (addRelevantTag topN) acc, kv.2.length ≤ topN := by
  induction tags generalizing acc with
  | nil => exact hacc
  | cons t rest ih =>
    intro kv hkv
    simp only [List.foldl_cons] at hkv
    refine ih (addRelevantTag topN acc t) ?_ kv hkv
    cases hkm : keyMap t.key with
    | none => simpa [addRelevantTag, hkm] using hacc
    | some mk =>
      simp only [addRelevantTag, hkm]
      exact upsert_preserve (P := fun v => v.length ≤ topN) hacc
        (summarizeTag_length (some t) topN)

/-- Claim C9: every kept value's `percent` is the exact percentage
`count / totalValues * 100` rounded to one decimal place (a multiple of
0.1 within 0.05 of the exact value); with `totalValues = 200` a value with
`count = 50` gets `percent = 25`; at most `topN` values are kept per tag,
and the standard-mode extraction (topN = 3) stores at most 3 values per
canonical key. -/
theorem c9_tag_percentages (t : TagObj) (tvs : List TopValue) (total : Nat)
    (htv : t.topValues = some tvs) (htot : t.totalValues = some total)
    (h0 : 0 < total) (topN : Nat) (tags : List TagObj) :
    ((summarizeTag (some t) topN).length ≤ topN) ∧
    (∀ e ∈ summarizeTag (some t) topN, ∃ p : ℚ, e.percent = some p ∧
       (p * 10).den = 1 ∧ |p - (e.count : ℚ) / (total : ℚ) * 100| ≤ 1 / 20) ∧
    (total = 200 → ∀ e ∈ summarizeTag (some t) topN, e.count = 50 →
       e.percent = some 25) ∧
    (∀ kv ∈ (extractRelevantTags (some tags) 3).getD [], kv.2.length ≤ 3) := by
  have hpct : ∀ e ∈ summarizeTag (some t) topN,
      e.percent = some ((mathRound ((e.count : ℚ) / (total : ℚ) * 1000) : ℚ) / 10) := by
    intro e he
    simp only [summarizeTag, htv, htot, Option.getD_some, List.mem_map] at he
    obtain ⟨v, _, hev⟩ := he
    rw [← hev]
    simp [h0.ne']
  refine ⟨summarizeTag_length (some t) topN, ?_, ?_, ?_⟩
  · intro e he
    refine ⟨(mathRound ((e.count : ℚ) / (total : ℚ) * 1000) : ℚ) / 10,
      hpct e he, ?_, ?_⟩
    · rw [div_mul_cancel₀]
      · exact Rat.den_intCast _
      · norm_num
    · set x : ℚ := (e.count : ℚ) / (total : ℚ) * 1000 with hx
      have h1 : (mathRound x : ℚ) ≤ x + 1 / 2 := by
        simpa [mathRound] using Int.floor_le (x + 1 / 2)
      have h2 : x + 1 / 2 < (mathRound x : ℚ) + 1 := by
        simpa [mathRound] using Int.lt_floor_add_one (x + 1 / 2)
      have hx100 : (e.count : ℚ) / (total : ℚ) * 100 = x / 10 := by
        rw [hx]; ring
      rw [hx100, abs_le]
      refine ⟨by linarith, by linarith⟩
  · intro h200 e he h50
    rw [hpct e he, h50, h200]
    have h250 : ((50 : ℕ) : ℚ) / ((200 : ℕ) : ℚ) * 1000 = 250 := by norm_num
    rw [h250]
    have hr : mathRound 250 = 250 := by
      unfold mathRound
      rw [Int.floor_eq_iff]
      constructor <;> norm_num
    rw [hr]
    norm_num
  · intro kv hkv
    match htags : extractRelevantTags (some tags) 3 with
    | none => simp [htags] at hkv
    | some l =>
      simp only [htags, Option.getD_some] at hkv
      have hfold := foldl_addRelevantTag_length tags 3 [] (by simp)
      simp only [extractRelevantTags] at htags
      split at htags
      · have hl : tags.foldl (addRelevantTag 3) [] = l := by
          injection htags
        rw [← hl] at hkv
        exact hfold kv hkv
      · exact absurd htags (by simp)

/-- A top value with count 50. -/
def sampleTopValue : TopValue := { value := some "Chrome", count := 50 }

/-- A tag with `totalValues = 200` and one top value with count 50. -/
def sampleTag : TagObj :=
  { key := "browser", topValues := some [sampleTopValue], totalValues := some 200 }

/-- Claim C9, witness: the 200/50 tag evaluates to 25 percent. -/
theorem c9_tag_percentages_witness :
    (∀ e ∈ summarizeTag (some sampleTag) 3, e.count = 50 → e.percent = some 25) ∧
    ((summarizeTag (some sampleTag) 3).length ≤ 3) :=
  have h := c9_tag_percentages sampleTag [sampleTopValue] 200 rfl rfl
    (by decide) 3 [sampleTag]
  ⟨h.2.2.1 rfl, h.1⟩

/-- Claim C10: `summarizeTag` is total on degenerate inputs — a missing
tag object or a missing `topValues` array yields the empty list, and a
missing or zero `totalValues` yields `percent = null` for every kept
value (no division is attempted). -/
theorem c10_summarizeTag_total_safe (t : TagObj) (topN : Nat) :
    (summarizeTag none topN = []) ∧
    (t.topValues = none → summarizeTag (some t) topN = []) ∧
    ((t.totalValues = none ∨ t.totalValues = some 0) →
      ∀ e ∈ summarizeTag (some t) topN, e.percent = none) := by
  refine ⟨rfl, ?_, ?_⟩
  · intro h
    simp [summarizeTag, h]
  · intro h e he
    match htv : t.topValues with
    | none => simp [summarizeTag, htv] at he
    | some tvs =>
      have htot : t.totalValues.getD 0 = 0 := by
        rcases h with h | h <;> simp [h]
      simp only [summarizeTag, htv, htot, List.mem_map] at he
      obtain ⟨v, _, hev⟩ := he
      rw [← hev]
      simp

/-- A tag with top values but no `totalValues`. -/
def zeroTotalTag : TagObj :=
  { key := "os", topValues := some [sampleTopValue], totalValues := none }

/-- A tag with a total but no `topValues` array. -/
def noValuesTag : TagObj := { key := "os", topValues := none, totalValues := some 7 }

/-- Claim C10, witness: the degenerate tags evaluated concretely. -/
theorem c10_summarizeTag_total_safe_witness :
    (summarizeTag (some noValuesTag) 3 = []) ∧
    (∀ e ∈ summarizeTag (some zeroTotalTag) 3, e.percent = none) :=
  ⟨(c10_summarizeTag_total_safe noValuesTag 3).2.1 rfl,
   (c10_summarizeTag_total_safe zeroTotalTag 3).2.2 (Or.inl rfl)⟩

end SentrySensei
